import Mathlib

/-!
Verification of the concurrent batch PDF downloader of PaperGenie
(`src/modules/research/downloader.py`).

The module's observable behaviour is embedded shallowly:

* `DownloadStatus`, `DownloadResult` mirror the Python enum and result class.
* A network attempt is an `HttpEvent` (a response with status, content-type
  header and body bytes, or a raised exception); a task's environment is a
  function from the attempt index (the value of `retry_count` at that
  attempt) to the event that attempt observes.
* `download_pdf` re-expresses the retry loop of
  `DownloadManager.download_pdf` (lines 63-110) as a fuel recursion, the
  fuel being the remaining iterations of `while retry_count < max_retries`;
  alongside the returned `DownloadResult` it accumulates a `RunTrace`
  recording how many GET attempts were made, the exact sequence of backoff
  sleeps (`asyncio.sleep` durations, line 101-102), every file write
  performed (line 84-88), and whether the loop exited by exhausting its
  condition (reaching line 110).
* `batch_download_pdfs` mirrors lines 116-125: the `results` dict built by
  `zip(urls, download_results)` is modelled as an association list with
  Python-dict insertion semantics (`dictInsert`).
* The `asyncio.Semaphore(max_concurrent)` guarding the download section
  (lines 31 and 56) is modelled as a transition system `SemStep` /
  `SemReachable` over a token-count state, the `async with` discipline
  guaranteeing a task releases only a token it holds.
-/

namespace PaperGenie

/-- The `DownloadStatus` enum (downloader.py lines 11-17). -/
inductive DownloadStatus where
  | SUCCESS
  | FORBIDDEN
  | NOT_FOUND
  | SSL_ERROR
  | NETWORK_ERROR
  | UNKNOWN_ERROR
deriving DecidableEq, Repr

/-- The human-readable value attached to each enum member. -/
def DownloadStatus.value : DownloadStatus → String
  | .SUCCESS => "成功"
  | .FORBIDDEN => "访问被拒绝"
  | .NOT_FOUND => "文件不存在"
  | .SSL_ERROR => "SSL证书错误"
  | .NETWORK_ERROR => "网络错误"
  | .UNKNOWN_ERROR => "未知错误"

/-- The `DownloadResult` class (downloader.py lines 19-23). -/
structure DownloadResult where
  url : String
  status : DownloadStatus
  message : String
deriving DecidableEq, Repr

/-- Python's substring test `needle in haystack`, used by the content-type
check `'application/pdf' not in response.headers.get('content-type', '')`
(line 69). -/
def containsSubstr (haystack needle : String) : Bool :=
  haystack.toList.tails.any (fun t => needle.toList.isPrefixOf t)

/-- The four signature bytes `b'%PDF'` checked by
`content.startswith(b'%PDF')` (line 81). -/
def pdfMagic : List Nat := [37, 80, 68, 70]

/-- Python `str.endswith`, as used by `filename.endswith(".pdf")`
(line 76). -/
def strEndsWith (s t : String) : Bool :=
  t.toList.isSuffixOf s.toList

/-- After the `"://"` of a scheme, drop the authority part (up to the next
`/`).  Helper for `pathOfUrl`. -/
def dropSchemeAuthority : List Char → List Char
  | [] => []
  | ':' :: '/' :: '/' :: rest => rest.dropWhile (fun c => c ≠ '/')
  | _ :: rest => dropSchemeAuthority rest

/-- `urlparse(url).path` (line 74), modelled for the http(s)-style URLs the
callers pass: the fragment and query are cut off, and when the URL has a
`scheme://authority` part it is removed, leaving the path component. -/
def pathOfUrl (url : String) : String :=
  let cs := url.toList.takeWhile (fun c => c ≠ '#')
  let cs := cs.takeWhile (fun c => c ≠ '?')
  if cs.tails.any (fun t => ("://".toList).isPrefixOf t) then
    String.mk (dropSchemeAuthority cs)
  else String.mk cs

/-- `os.path.basename` (line 74): the part after the last `/`. -/
def basename (p : String) : String :=
  String.mk ((p.toList.reverse.takeWhile (fun c => c ≠ '/')).reverse)

/-- `os.path.join` (lines 72-75) for the two-argument form used there. -/
def ospJoin (a b : String) : String :=
  if b.toList.head? = some '/' then b
  else if a = "" then b
  else if a.toList.getLast? = some '/' then a ++ b
  else a ++ "/" ++ b

/-- The destination filename computed on lines 72-77: basename of the URL
path, falling back to `document_{hash(url)}.pdf` when empty (Python's
`or`), joined to `output_dir`, with `.pdf` forced if absent.  Python's
opaque `hash` builtin is passed in as a parameter `hashUrl`. -/
def filenameFor (hashUrl : String → Int) (output_dir url : String) : String :=
  let base := basename (pathOfUrl url)
  let name := if base = "" then "document_" ++ toString (hashUrl url) ++ ".pdf" else base
  let joined := ospJoin output_dir name
  if strEndsWith joined ".pdf" then joined else joined ++ ".pdf"

/-- What one GET attempt observes: either a response (status code,
`content-type` header value — `""` when the header is missing, matching
`headers.get('content-type', '')` — and body bytes), or an exception
raised anywhere in the `try` block of lines 65-103, carrying `str(e)`. -/
inductive HttpEvent where
  | resp (status : Nat) (contentType : String) (body : List Nat)
  | exn (message : String)
deriving DecidableEq, Repr

/-- Observable side effects of one call to `download_pdf`: the number of
GET attempts performed, the backoff sleep durations in order
(`asyncio.sleep(wait_time)`, line 102), the files written (path and
content, lines 84-88), and whether control reached the fall-through
return on line 110. -/
structure RunTrace where
  attempts : Nat
  sleeps : List Nat
  written : List (String × List Nat)
  fellThrough : Bool
deriving DecidableEq, Repr

/-- The body of the `while retry_count < self.max_retries` loop
(downloader.py lines 64-110), as a recursion on the number of remaining
loop iterations (`fuel`); `r` is the current `retry_count`.  `events r`
is what the GET of attempt `r` observes.  Exhausting the fuel is the
loop condition turning false, i.e. reaching line 110. -/
def downloadPdfGo (hashUrl : String → Int) (url output_dir : String) (max_retries : Int)
    (events : Nat → HttpEvent) : Nat → Nat → RunTrace → RunTrace × DownloadResult
  | _, 0, tr =>
    ({ tr with fellThrough := true }, ⟨url, .UNKNOWN_ERROR, "超过最大重试次数"⟩)
  | r, fuel + 1, tr =>
    match events r with
    | .resp s ct body =>
      let tr1 : RunTrace := { tr with attempts := tr.attempts + 1 }
      if s = 200 then
        if containsSubstr ct "application/pdf" = false then
          (tr1, ⟨url, .NOT_FOUND, "响应不是PDF文件"⟩)
        else if List.isPrefixOf pdfMagic body = false then
          (tr1, ⟨url, .NOT_FOUND, "文件内容不是PDF格式"⟩)
        else
          let filename := filenameFor hashUrl output_dir url
          ({ tr1 with written := tr1.written ++ [(filename, body)] },
           ⟨url, .SUCCESS, "已下载到: " ++ filename⟩)
      else if s = 403 then
        (tr1, ⟨url, .FORBIDDEN, "需要认证或访问被拒绝"⟩)
      else if s = 404 then
        (tr1, ⟨url, .NOT_FOUND, "文件不存在"⟩)
      else if (r : Int) = max_retries - 1 then
        (tr1, ⟨url, .UNKNOWN_ERROR, "HTTP错误: " ++ toString s⟩)
      else
        downloadPdfGo hashUrl url output_dir max_retries events (r + 1) fuel
          { tr1 with sleeps := tr1.sleeps ++ [min (2 ^ r) 32] }
    | .exn msg =>
      let tr1 : RunTrace := { tr with attempts := tr.attempts + 1 }
      if (r : Int) = max_retries - 1 then
        (tr1, ⟨url, .UNKNOWN_ERROR, msg⟩)
      else
        downloadPdfGo hashUrl url output_dir max_retries events (r + 1) fuel tr1

/-- `DownloadManager.download_pdf` (lines 55-110): the retry loop started
at `retry_count = 0` with `max_retries` remaining iterations (`self.max_retries`
is a Python int, so an argument `≤ 0` means the loop body never runs). -/
def download_pdf (hashUrl : String → Int) (url output_dir : String) (max_retries : Int)
    (events : Nat → HttpEvent) : RunTrace × DownloadResult :=
  downloadPdfGo hashUrl url output_dir max_retries events 0 max_retries.toNat
    ⟨0, [], [], false⟩

/-- Python dict assignment `results[url] = result` (line 125): replace in
place when the key is present, append otherwise. -/
def dictInsert (d : List (String × DownloadResult)) (k : String) (v : DownloadResult) :
    List (String × DownloadResult) :=
  if d.any (fun p => p.1 = k) then d.map (fun p => if p.1 = k then (k, v) else p)
  else d ++ [(k, v)]

/-- `batch_download_pdfs` (lines 112-144), with the network abstracted:
`results` is the list `asyncio.gather` returns, one `DownloadResult` per
task in task order (each task is one `download_pdf` call, which always
returns a result and never raises).  The `for url, result in
zip(urls, download_results)` loop builds the dict. -/
def batch_download_pdfs (urls : List String) (results : List DownloadResult) :
    List (String × DownloadResult) :=
  (urls.zip results).foldl (fun d p => dictInsert d p.1 p.2) []

/-- State of `asyncio.Semaphore(max_concurrent)` (line 31) together with
the tasks inside the `async with self.semaphore` section (line 56):
`available` free tokens, `holders` tasks currently holding one. -/
structure SemState where
  available : Nat
  holders : Nat
deriving DecidableEq, Repr

/-- The semaphore as first constructed: all tokens free, no holder. -/
def SemState.init (n : Nat) : SemState := ⟨n, 0⟩

/-- One scheduler step: a task acquires a token (only possible while one
is free — otherwise `acquire()` suspends it), or a task holding a token
releases it on leaving the `async with` block. -/
inductive SemStep : SemState → SemState → Prop where
  | acquire (s : SemState) (h : 0 < s.available) :
      SemStep s ⟨s.available - 1, s.holders + 1⟩
  | release (s : SemState) (h : 0 < s.holders) :
      SemStep s ⟨s.available + 1, s.holders - 1⟩

/-- States reachable during a batch run from a fresh semaphore of `n`
tokens. -/
inductive SemReachable (n : Nat) : SemState → Prop where
  | init : SemReachable n (SemState.init n)
  | step {s t : SemState} : SemReachable n s → SemStep s t → SemReachable n t

end PaperGenie

namespace PaperGenie

/-! ### Association-list (Python dict) lemmas -/

lemma any_key_eq (d : List (String × DownloadResult)) (k : String) :
    d.any (fun p => p.1 = k) = true ↔ k ∈ d.map Prod.fst := by
  simp [List.any_eq_true, List.mem_map]

lemma dictInsert_map_fst (d : List (String × DownloadResult)) (k : String) (v : DownloadResult) :
    (dictInsert d k v).map Prod.fst
      = if k ∈ d.map Prod.fst then d.map Prod.fst else d.map Prod.fst ++ [k] := by
  unfold dictInsert
  by_cases h : k ∈ d.map Prod.fst
  · rw [if_pos ((any_key_eq d k).2 h), if_pos h, List.map_map]
    apply List.map_congr_left
    intro p _
    by_cases hp : p.1 = k <;> simp [hp]
  · rw [if_neg (fun hc => h ((any_key_eq d k).1 hc)), if_neg h, List.map_append]
    simp

lemma mem_dictInsert_keys (d : List (String × DownloadResult)) (k : String)
    (v : DownloadResult) (u : String) :
    u ∈ (dictInsert d k v).map Prod.fst ↔ u ∈ d.map Prod.fst ∨ u = k := by
  rw [dictInsert_map_fst]
  split
  · next hk => constructor
               · exact Or.inl
               · rintro (h | rfl)
                 · exact h
                 · exact hk
  · simp [List.mem_append]

lemma dictInsert_nodup (d : List (String × DownloadResult)) (k : String) (v : DownloadResult)
    (h : (d.map Prod.fst).Nodup) : ((dictInsert d k v).map Prod.fst).Nodup := by
  rw [dictInsert_map_fst]
  split
  · exact h
  · next hk => rw [List.nodup_append]
               refine ⟨h, List.nodup_singleton k, ?_⟩
               intro a ha hak
               rw [List.mem_singleton] at hak
               exact hk (hak ▸ ha)

lemma countP_key_of_nodup (d : List (String × DownloadResult))
    (h : (d.map Prod.fst).Nodup) (u : String) :
    d.countP (fun p => p.1 = u) = if u ∈ d.map Prod.fst then 1 else 0 := by
  induction d with
  | nil => simp
  | cons p d ih =>
    rw [List.map_cons, List.nodup_cons] at h
    rw [List.countP_cons]
    by_cases hu : p.1 = u
    · have hnot : u ∉ d.map Prod.fst := hu ▸ h.1
      simp [ih h.2, hu, hnot]
    · have hne : ¬ u = p.1 := fun he => hu he.symm
      simp only [List.map_cons, List.mem_cons, hne, false_or]
      simp [ih h.2, hu]

lemma foldl_dictInsert_mem (ps : List (String × DownloadResult)) :
    ∀ (d : List (String × DownloadResult)) (u : String),
      u ∈ ((ps.foldl (fun d p => dictInsert d p.1 p.2) d).map Prod.fst)
        ↔ u ∈ d.map Prod.fst ∨ u ∈ ps.map Prod.fst := by
  induction ps with
  | nil => simp
  | cons p ps ih =>
    intro d u
    simp only [List.foldl_cons, List.map_cons, List.mem_cons]
    rw [ih, mem_dictInsert_keys]
    tauto

lemma foldl_dictInsert_nodup (ps : List (String × DownloadResult)) :
    ∀ (d : List (String × DownloadResult)), (d.map Prod.fst).Nodup →
      ((ps.foldl (fun d p => dictInsert d p.1 p.2) d).map Prod.fst).Nodup := by
  induction ps with
  | nil => intro d h; exact h
  | cons p ps ih =>
    intro d h
    exact ih _ (dictInsert_nodup d p.1 p.2 h)

lemma foldl_dictInsert_keys (ps : List (String × DownloadResult)) :
    ∀ (d : List (String × DownloadResult)),
      (d.map Prod.fst ++ ps.map Prod.fst).Nodup →
      (ps.foldl (fun d p => dictInsert d p.1 p.2) d).map Prod.fst
        = d.map Prod.fst ++ ps.map Prod.fst := by
  induction ps with
  | nil => simp
  | cons p ps ih =>
    intro d h
    simp only [List.foldl_cons]
    have hk : p.1 ∉ d.map Prod.fst := by
      rw [List.nodup_append] at h
      exact fun hc => h.2.2 hc (List.mem_cons_self _ _)
    rw [ih (dictInsert d p.1 p.2)]
    · rw [dictInsert_map_fst, if_neg hk]
      simp
    · rw [dictInsert_map_fst, if_neg hk]
      simpa [List.append_assoc] using h

/-! ### Semaphore invariant -/

lemma sem_invariant (n : Nat) (s : SemState) (h : SemReachable n s) :
    s.available + s.holders = n := by
  induction h with
  | init => simp [SemState.init]
  | step _ hstep ih =>
    cases hstep with
    | acquire hs => simp only []
                    omega
    | release hs => simp only []
                    omega

/-! ### Retry-loop characterizations -/

lemma go_all_exn (hashUrl : String → Int) (url output_dir : String) (max_retries : Int)
    (events : Nat → HttpEvent) (msgs : Nat → String)
    (hev : ∀ i, events i = HttpEvent.exn (msgs i)) :
    ∀ (fuel r : Nat) (tr : RunTrace), 0 < fuel → (r : Int) + fuel = max_retries →
      downloadPdfGo hashUrl url output_dir max_retries events r fuel tr
        = ({ tr with attempts := tr.attempts + fuel },
           ⟨url, .UNKNOWN_ERROR, msgs (r + fuel - 1)⟩) := by
  intro fuel
  induction fuel with
  | zero => intro r tr hpos _; omega
  | succ f ih =>
    intro r tr _ hsum
    push_cast at hsum
    simp only [downloadPdfGo, hev r]
    by_cases hfin : (r : Int) = max_retries - 1
    · have hf0 : f = 0 := by omega
      subst hf0
      rw [if_pos hfin]
      simp
    · have hf : 0 < f := by omega
      rw [if_neg hfin, ih (r + 1) _ hf (by push_cast; omega)]
      have h1 : tr.attempts + 1 + f = tr.attempts + (f + 1) := by omega
      have h2 : r + 1 + f - 1 = r + (f + 1) - 1 := by omega
      rw [h1, h2]

lemma sleeps_shift (r f : Nat) :
    min (2 ^ r) 32 :: (List.range f).map (fun i => min (2 ^ (r + 1 + i)) 32)
      = (List.range (f + 1)).map (fun i => min (2 ^ (r + i)) 32) := by
  rw [List.range_succ_eq_map, List.map_cons, List.map_map]
  refine congrArg₂ _ (by simp) ?_
  apply List.map_congr_left
  intro a _
  simp only [Function.comp]
  congr 2
  omega

lemma go_all_status (hashUrl : String → Int) (url output_dir : String) (max_retries : Int)
    (events : Nat → HttpEvent) (s : Nat) (ct : String) (body : List Nat)
    (hs200 : s ≠ 200) (hs403 : s ≠ 403) (hs404 : s ≠ 404)
    (hev : ∀ i, events i = HttpEvent.resp s ct body) :
    ∀ (fuel r : Nat) (tr : RunTrace), 0 < fuel → (r : Int) + fuel = max_retries →
      downloadPdfGo hashUrl url output_dir max_retries events r fuel tr
        = ({ attempts := tr.attempts + fuel,
             sleeps := tr.sleeps ++ (List.range (fuel - 1)).map (fun i => min (2 ^ (r + i)) 32),
             written := tr.written, fellThrough := tr.fellThrough },
           ⟨url, .UNKNOWN_ERROR, "HTTP错误: " ++ toString s⟩) := by
  intro fuel
  induction fuel with
  | zero => intro r tr hpos _; omega
  | succ f ih =>
    intro r tr _ hsum
    push_cast at hsum
    simp only [downloadPdfGo, hev r]
    rw [if_neg hs200, if_neg hs403, if_neg hs404]
    by_cases hfin : (r : Int) = max_retries - 1
    · have hf0 : f = 0 := by omega
      subst hf0
      rw [if_pos hfin]
      simp
    · have hf : 0 < f := by omega
      rw [if_neg hfin, ih (r + 1) _ hf (by push_cast; omega)]
      obtain ⟨g, rfl⟩ : ∃ g, f = g + 1 := ⟨f - 1, by omega⟩
      refine congrArg₂ _ ?_ rfl
      simp only [Nat.add_sub_cancel]
      have h1 : tr.attempts + 1 + (g + 1) = tr.attempts + (g + 1 + 1) := by omega
      rw [h1, List.append_assoc, List.singleton_append, sleeps_shift]

lemma go_never_network_error (hashUrl : String → Int) (url output_dir : String)
    (max_retries : Int) (events : Nat → HttpEvent) :
    ∀ (fuel r : Nat) (tr : RunTrace),
      (downloadPdfGo hashUrl url output_dir max_retries events r fuel tr).2.status
        ≠ DownloadStatus.NETWORK_ERROR := by
  intro fuel
  induction fuel with
  | zero => intro r tr; simp [downloadPdfGo]
  | succ f ih =>
    intro r tr
    cases hev : events r with
    | resp s ct body =>
      simp only [downloadPdfGo, hev]
      split_ifs <;> first | exact ih _ _ | simp
    | exn msg =>
      simp only [downloadPdfGo, hev]
      split_ifs <;> first | exact ih _ _ | simp

lemma go_no_fallthrough (hashUrl : String → Int) (url output_dir : String) (max_retries : Int)
    (events : Nat → HttpEvent) :
    ∀ (fuel r : Nat) (tr : RunTrace), 0 < fuel → (r : Int) + fuel = max_retries →
      tr.fellThrough = false →
      (downloadPdfGo hashUrl url output_dir max_retries events r fuel tr).1.fellThrough
        = false := by
  intro fuel
  induction fuel with
  | zero => intro r tr hpos; omega
  | succ f ih =>
    intro r tr _ hsum htr
    push_cast at hsum
    cases hev : events r with
    | resp s ct body =>
      simp only [downloadPdfGo, hev]
      split_ifs <;> first
        | simpa using htr
        | exact ih (r + 1) _ (by omega) (by push_cast; omega) (by simpa using htr)
    | exn msg =>
      simp only [downloadPdfGo, hev]
      split_ifs <;> first
        | simpa using htr
        | exact ih (r + 1) _ (by omega) (by push_cast; omega) (by simpa using htr)

lemma body_ne_nil_of_magic (body : List Nat) (h : List.isPrefixOf pdfMagic body = true) :
    body ≠ [] := by
  intro hb
  subst hb
  exact absurd h (by decide)

lemma go_success_written (hashUrl : String → Int) (url output_dir : String) (max_retries : Int)
    (events : Nat → HttpEvent) :
    ∀ (fuel r : Nat) (tr : RunTrace),
      (downloadPdfGo hashUrl url output_dir max_retries events r fuel tr).2.status
          = DownloadStatus.SUCCESS →
      ∃ body : List Nat,
        (downloadPdfGo hashUrl url output_dir max_retries events r fuel tr).1.written
            = tr.written ++ [(filenameFor hashUrl output_dir url, body)]
        ∧ List.isPrefixOf pdfMagic body = true
        ∧ (downloadPdfGo hashUrl url output_dir max_retries events r fuel tr).2.message
            = "已下载到: " ++ filenameFor hashUrl output_dir url := by
  intro fuel
  induction fuel with
  | zero => intro r tr h; simp [downloadPdfGo] at h
  | succ f ih =>
    intro r tr h
    cases hev : events r with
    | resp s ct body =>
      simp only [downloadPdfGo, hev] at h ⊢
      split_ifs at h ⊢ with h1 h2 h3 <;> first
        | exact ⟨body, by simp, by simpa using h3, by simp⟩
        | simp at h
        | exact ih (r + 1) _ h
    | exn msg =>
      simp only [downloadPdfGo, hev] at h ⊢
      split_ifs at h ⊢
      exact ih (r + 1) _ h

/-! ### Claim theorems -/

/-- Claim C3: `batch_download_pdfs` is a total function of the per-task
results (partial failure never aborts it), and for every requested URL the
returned mapping contains exactly one entry keyed by that URL — even when
every individual task failed. -/
theorem C3_batch_one_result_per_url (urls : List String) (results : List DownloadResult)
    (hlen : urls.length ≤ results.length) (u : String) (hu : u ∈ urls) :
    (batch_download_pdfs urls results).countP (fun p => p.1 = u) = 1 := by
  unfold batch_download_pdfs
  have hmem : u ∈ ((urls.zip results).foldl (fun d p => dictInsert d p.1 p.2) []).map Prod.fst := by
    rw [foldl_dictInsert_mem]
    exact Or.inr (by rw [List.map_fst_zip _ _ hlen]; exact hu)
  have hnd := foldl_dictInsert_nodup (urls.zip results) [] (by simp)
  rw [countP_key_of_nodup _ hnd, if_pos hmem]

/-- Witness for C3 at a concrete batch in which every task failed. -/
theorem C3_batch_one_result_per_url_witness :
    (batch_download_pdfs ["http://a/x.pdf", "http://b/y.pdf"]
        [⟨"http://a/x.pdf", .FORBIDDEN, "需要认证或访问被拒绝"⟩,
         ⟨"http://b/y.pdf", .UNKNOWN_ERROR, "HTTP错误: 500"⟩]).countP
      (fun p => p.1 = "http://b/y.pdf") = 1 :=
  C3_batch_one_result_per_url _ _ (by decide) _ (by decide)

/-- Claim C8: for a batch of pairwise-distinct URLs whose gather produced
one result per task, the report has exactly N entries whose keys are, in
insertion order, exactly the input URLs in request order. -/
theorem C8_batch_keys_in_request_order (urls : List String) (results : List DownloadResult)
    (hnd : urls.Nodup) (hlen : urls.length ≤ results.length) :
    (batch_download_pdfs urls results).map Prod.fst = urls ∧
    (batch_download_pdfs urls results).length = urls.length := by
  have hzip : (urls.zip results).map Prod.fst = urls := List.map_fst_zip _ _ hlen
  have hkeys : (batch_download_pdfs urls results).map Prod.fst = urls := by
    unfold batch_download_pdfs
    rw [foldl_dictInsert_keys (urls.zip results) [] (by simpa [hzip] using hnd)]
    simpa using hzip
  refine ⟨hkeys, ?_⟩
  have := congrArg List.length hkeys
  simpa using this

/-- Witness for C8 at a concrete two-URL batch. -/
theorem C8_batch_keys_in_request_order_witness :
    (batch_download_pdfs ["u1", "u2"]
        [⟨"u1", .SUCCESS, "已下载到: d/u1.pdf"⟩, ⟨"u2", .NOT_FOUND, "文件不存在"⟩]).map Prod.fst
      = ["u1", "u2"] ∧
    (batch_download_pdfs ["u1", "u2"]
        [⟨"u1", .SUCCESS, "已下载到: d/u1.pdf"⟩, ⟨"u2", .NOT_FOUND, "文件不存在"⟩]).length = 2 :=
  C8_batch_keys_in_request_order _ _ (by decide) (by decide)

/-- Claim C9: in every state reachable during a batch run, the number of
tasks holding a concurrency token of `asyncio.Semaphore(n)` never exceeds
the configured maximum `n` (default 5). -/
theorem C9_semaphore_bound (n : Nat) (s : SemState) (h : SemReachable n s) :
    s.holders ≤ n := by
  have := sem_invariant n s h
  omega

/-- Witness for C9 at the default limit 5 and the initial state. -/
theorem C9_semaphore_bound_witness : (SemState.init 5).holders ≤ 5 :=
  C9_semaphore_bound 5 (SemState.init 5) SemReachable.init

/-- Claim C1 counterexample: with the default max_retries = 3 and a
transport-level exception on every attempt, the final attempt terminates
with UNKNOWN_ERROR — not NETWORK_ERROR as the claim states. -/
theorem C1_counterexample :
    (download_pdf (fun _ => 0) "http://e.com/a.pdf" "documents" 3
        (fun _ => HttpEvent.exn "Cannot connect to host e.com:443")).2.status
      = DownloadStatus.UNKNOWN_ERROR ∧
    (download_pdf (fun _ => 0) "http://e.com/a.pdf" "documents" 3
        (fun _ => HttpEvent.exn "Cannot connect to host e.com:443")).2.status
      ≠ DownloadStatus.NETWORK_ERROR := by
  constructor
  · decide
  · decide

/-- Claim C1 (amended): a task whose final attempt fails with a
transport-level exception terminates with UNKNOWN_ERROR (not
NETWORK_ERROR) carrying str(e), exactly like the
retry-budget-exhausted-by-HTTP-status case, which terminates with
UNKNOWN_ERROR carrying the HTTP status detail. -/
theorem C1_final_attempt_unknown_error (hashUrl : String → Int) (url output_dir : String)
    (max_retries : Int) (h1 : 1 ≤ max_retries) (msgs : Nat → String)
    (s : Nat) (ct : String) (body : List Nat)
    (hs200 : s ≠ 200) (hs403 : s ≠ 403) (hs404 : s ≠ 404) :
    (download_pdf hashUrl url output_dir max_retries (fun i => HttpEvent.exn (msgs i))).2
      = ⟨url, .UNKNOWN_ERROR, msgs (max_retries.toNat - 1)⟩ ∧
    (download_pdf hashUrl url output_dir max_retries (fun _ => HttpEvent.resp s ct body)).2
      = ⟨url, .UNKNOWN_ERROR, "HTTP错误: " ++ toString s⟩ := by
  have hpos : 0 < max_retries.toNat := by omega
  have hsum : ((0 : Nat) : Int) + max_retries.toNat = max_retries := by push_cast; omega
  constructor
  · unfold download_pdf
    rw [go_all_exn hashUrl url output_dir max_retries _ msgs (fun i => rfl) _ 0 _ hpos hsum]
    simp
  · unfold download_pdf
    rw [go_all_status hashUrl url output_dir max_retries _ s ct body hs200 hs403 hs404
          (fun i => rfl) _ 0 _ hpos hsum]

/-- Witness for C1 (amended) at max_retries = 3 (the default). -/
theorem C1_final_attempt_unknown_error_witness :
    (download_pdf (fun _ => 0) "u1" "d" 3 (fun _ => HttpEvent.exn "boom")).2
      = ⟨"u1", .UNKNOWN_ERROR, "boom"⟩ ∧
    (download_pdf (fun _ => 0) "u1" "d" 3 (fun _ => HttpEvent.resp 500 "ct" [1])).2
      = ⟨"u1", .UNKNOWN_ERROR, "HTTP错误: " ++ toString 500⟩ :=
  C1_final_attempt_unknown_error (fun _ => 0) "u1" "d" 3 (by decide) (fun _ => "boom")
    500 "ct" [1] (by decide) (by decide) (by decide)

/-- Claim C2 counterexample: with the default max_retries = 3 and a
transport-level exception on every attempt, two non-final transient
failures are retried and yet no backoff sleep occurs at all — the
exception handler skips the sleep, so backoff does not apply to the
exception case. -/
theorem C2_counterexample :
    (download_pdf (fun _ => 0) "u2" "d" 3 (fun _ => HttpEvent.exn "timeout")).1.attempts = 3 ∧
    (download_pdf (fun _ => 0) "u2" "d" 3 (fun _ => HttpEvent.exn "timeout")).1.sleeps = [] := by
  constructor
  · decide
  · decide

/-- Claim C2 (amended): the backoff sleep of min(2^attempt, 32) seconds
before the next attempt applies to the transient-HTTP-status case only:
a run that gets a transient status on every attempt sleeps exactly
min(2^k, 32) after each non-final attempt k, while a run whose attempts
raise transport-level exceptions retries immediately and never sleeps. -/
theorem C2_backoff_status_case_only (hashUrl : String → Int) (url output_dir : String)
    (max_retries : Int) (h1 : 1 ≤ max_retries) (msgs : Nat → String)
    (s : Nat) (ct : String) (body : List Nat)
    (hs200 : s ≠ 200) (hs403 : s ≠ 403) (hs404 : s ≠ 404) :
    (download_pdf hashUrl url output_dir max_retries (fun _ => HttpEvent.resp s ct body)).1.sleeps
      = (List.range (max_retries.toNat - 1)).map (fun k => min (2 ^ k) 32) ∧
    (download_pdf hashUrl url output_dir max_retries (fun i => HttpEvent.exn (msgs i))).1.sleeps
      = [] := by
  have hpos : 0 < max_retries.toNat := by omega
  have hsum : ((0 : Nat) : Int) + max_retries.toNat = max_retries := by push_cast; omega
  constructor
  · unfold download_pdf
    rw [go_all_status hashUrl url output_dir max_retries _ s ct body hs200 hs403 hs404
          (fun i => rfl) _ 0 _ hpos hsum]
    simp
  · unfold download_pdf
    rw [go_all_exn hashUrl url output_dir max_retries _ msgs (fun i => rfl) _ 0 _ hpos hsum]

/-- Witness for C2 (amended) at max_retries = 3 and status 502. -/
theorem C2_backoff_status_case_only_witness :
    (download_pdf (fun _ => 0) "u3" "d" 3 (fun _ => HttpEvent.resp 502 "ct" [])).1.sleeps
      = (List.range 2).map (fun k => min (2 ^ k) 32) ∧
    (download_pdf (fun _ => 0) "u3" "d" 3 (fun _ => HttpEvent.exn "reset")).1.sleeps = [] :=
  C2_backoff_status_case_only (fun _ => 0) "u3" "d" 3 (by decide) (fun _ => "reset")
    502 "ct" [] (by decide) (by decide) (by decide)

/-- Claim C4: a task receiving a transient HTTP status (e.g. 500) on every
attempt terminates with UNKNOWN_ERROR after exactly max_retries attempts;
numbering attempts from 0 as §4.3 of the spec does, the sleeps list has
one entry per attempt k ≥ 1 and its (k-1)-th entry — the delay before
attempt k — is min(2^(k-1), 32) seconds. -/
theorem C4_transient_status_exhausts_retries (hashUrl : String → Int) (url output_dir : String)
    (max_retries : Int) (h1 : 1 ≤ max_retries)
    (s : Nat) (ct : String) (body : List Nat)
    (hs200 : s ≠ 200) (hs403 : s ≠ 403) (hs404 : s ≠ 404) :
    (download_pdf hashUrl url output_dir max_retries (fun _ => HttpEvent.resp s ct body)).2.status
      = DownloadStatus.UNKNOWN_ERROR ∧
    (download_pdf hashUrl url output_dir max_retries (fun _ => HttpEvent.resp s ct body)).1.attempts
      = max_retries.toNat ∧
    (download_pdf hashUrl url output_dir max_retries (fun _ => HttpEvent.resp s ct body)).1.sleeps
      = (List.range (max_retries.toNat - 1)).map (fun k => min (2 ^ k) 32) := by
  have hpos : 0 < max_retries.toNat := by omega
  have hsum : ((0 : Nat) : Int) + max_retries.toNat = max_retries := by push_cast; omega
  unfold download_pdf
  rw [go_all_status hashUrl url output_dir max_retries _ s ct body hs200 hs403 hs404
        (fun i => rfl) _ 0 _ hpos hsum]
  refine ⟨rfl, by simp, by simp⟩

/-- Witness for C4: HTTP 500 on all attempts, max_retries = 3. -/
theorem C4_transient_status_exhausts_retries_witness :
    (download_pdf (fun _ => 0) "u4" "d" 3 (fun _ => HttpEvent.resp 500 "ct" [])).2.status
      = DownloadStatus.UNKNOWN_ERROR ∧
    (download_pdf (fun _ => 0) "u4" "d" 3 (fun _ => HttpEvent.resp 500 "ct" [])).1.attempts
      = Int.toNat 3 ∧
    (download_pdf (fun _ => 0) "u4" "d" 3 (fun _ => HttpEvent.resp 500 "ct" [])).1.sleeps
      = (List.range (Int.toNat 3 - 1)).map (fun k => min (2 ^ k) 32) :=
  C4_transient_status_exhausts_retries (fun _ => 0) "u4" "d" 3 (by decide)
    500 "ct" [] (by decide) (by decide) (by decide)

/-- Claim C5: an HTTP 200 response whose content-type header does not
declare application/pdf, or whose body does not begin with %PDF,
terminates with NOT_FOUND on that very attempt: one attempt, no retry,
no backoff sleep, and no file written. -/
theorem C5_validator_reject_not_found (hashUrl : String → Int) (url output_dir : String)
    (max_retries : Int) (h1 : 1 ≤ max_retries) (events : Nat → HttpEvent)
    (ct : String) (body : List Nat) (hev : events 0 = HttpEvent.resp 200 ct body)
    (hbad : containsSubstr ct "application/pdf" = false
          ∨ List.isPrefixOf pdfMagic body = false) :
    (download_pdf hashUrl url output_dir max_retries events).2.status
      = DownloadStatus.NOT_FOUND ∧
    (download_pdf hashUrl url output_dir max_retries events).1.attempts = 1 ∧
    (download_pdf hashUrl url output_dir max_retries events).1.sleeps = [] ∧
    (download_pdf hashUrl url output_dir max_retries events).1.written = [] := by
  unfold download_pdf
  obtain ⟨f, hf⟩ : ∃ f, max_retries.toNat = f + 1 := ⟨max_retries.toNat - 1, by omega⟩
  rw [hf]
  rcases hbad with hb | hb
  · simp [downloadPdfGo, hev, hb]
  · by_cases hct : containsSubstr ct "application/pdf" = false
    · simp [downloadPdfGo, hev, hct]
    · simp [downloadPdfGo, hev, hct, hb]

/-- Witness for C5: HTTP 200 with content-type text/html and an HTML
body. -/
theorem C5_validator_reject_not_found_witness :
    (download_pdf (fun _ => 0) "u5" "d" 3
        (fun _ => HttpEvent.resp 200 "text/html" [60, 104, 116, 109, 108, 62])).2.status
      = DownloadStatus.NOT_FOUND ∧
    (download_pdf (fun _ => 0) "u5" "d" 3
        (fun _ => HttpEvent.resp 200 "text/html" [60, 104, 116, 109, 108, 62])).1.attempts = 1 ∧
    (download_pdf (fun _ => 0) "u5" "d" 3
        (fun _ => HttpEvent.resp 200 "text/html" [60, 104, 116, 109, 108, 62])).1.sleeps = [] ∧
    (download_pdf (fun _ => 0) "u5" "d" 3
        (fun _ => HttpEvent.resp 200 "text/html" [60, 104, 116, 109, 108, 62])).1.written = [] :=
  C5_validator_reject_not_found (fun _ => 0) "u5" "d" 3 (by decide) _
    "text/html" [60, 104, 116, 109, 108, 62] rfl (Or.inl (by decide))

/-- Claim C6: a first-attempt HTTP 403 terminates with FORBIDDEN after
exactly one attempt and no backoff sleep, and a first-attempt HTTP 404
terminates with NOT_FOUND after exactly one attempt and no backoff
sleep — neither status is retried. -/
theorem C6_403_forbidden_404_not_found_no_retry (hashUrl : String → Int)
    (url output_dir : String) (max_retries : Int) (h1 : 1 ≤ max_retries)
    (ev403 ev404 : Nat → HttpEvent) (ct1 ct2 : String) (b1 b2 : List Nat)
    (h3 : ev403 0 = HttpEvent.resp 403 ct1 b1) (h4 : ev404 0 = HttpEvent.resp 404 ct2 b2) :
    (download_pdf hashUrl url output_dir max_retries ev403).2
      = ⟨url, .FORBIDDEN, "需要认证或访问被拒绝"⟩ ∧
    (download_pdf hashUrl url output_dir max_retries ev403).1.attempts = 1 ∧
    (download_pdf hashUrl url output_dir max_retries ev403).1.sleeps = [] ∧
    (download_pdf hashUrl url output_dir max_retries ev404).2
      = ⟨url, .NOT_FOUND, "文件不存在"⟩ ∧
    (download_pdf hashUrl url output_dir max_retries ev404).1.attempts = 1 ∧
    (download_pdf hashUrl url output_dir max_retries ev404).1.sleeps = [] := by
  unfold download_pdf
  obtain ⟨f, hf⟩ : ∃ f, max_retries.toNat = f + 1 := ⟨max_retries.toNat - 1, by omega⟩
  rw [hf]
  simp [downloadPdfGo, h3, h4]

/-- Witness for C6 at max_retries = 3. -/
theorem C6_403_forbidden_404_not_found_no_retry_witness :
    (download_pdf (fun _ => 0) "u6" "d" 3 (fun _ => HttpEvent.resp 403 "" [])).2
      = ⟨"u6", .FORBIDDEN, "需要认证或访问被拒绝"⟩ ∧
    (download_pdf (fun _ => 0) "u6" "d" 3 (fun _ => HttpEvent.resp 403 "" [])).1.attempts = 1 ∧
    (download_pdf (fun _ => 0) "u6" "d" 3 (fun _ => HttpEvent.resp 403 "" [])).1.sleeps = [] ∧
    (download_pdf (fun _ => 0) "u6" "d" 3 (fun _ => HttpEvent.resp 404 "" [])).2
      = ⟨"u6", .NOT_FOUND, "文件不存在"⟩ ∧
    (download_pdf (fun _ => 0) "u6" "d" 3 (fun _ => HttpEvent.resp 404 "" [])).1.attempts = 1 ∧
    (download_pdf (fun _ => 0) "u6" "d" 3 (fun _ => HttpEvent.resp 404 "" [])).1.sleeps = [] :=
  C6_403_forbidden_404_not_found_no_retry (fun _ => 0) "u6" "d" 3 (by decide)
    _ _ "" "" [] [] rfl rfl

/-- Claim C7: whenever a run of download_pdf ends with SUCCESS, exactly
one file was written; its path is the destination filename recorded in
the outcome message, and its content is non-empty and begins with the
%PDF signature bytes. -/
theorem C7_success_implies_valid_file_written (hashUrl : String → Int)
    (url output_dir : String) (max_retries : Int) (events : Nat → HttpEvent)
    (h : (download_pdf hashUrl url output_dir max_retries events).2.status
          = DownloadStatus.SUCCESS) :
    (download_pdf hashUrl url output_dir max_retries events).1.written.map Prod.fst
      = [filenameFor hashUrl output_dir url] ∧
    (download_pdf hashUrl url output_dir max_retries events).1.written.all
        (fun p => List.isPrefixOf pdfMagic p.2 && !p.2.isEmpty) = true ∧
    (download_pdf hashUrl url output_dir max_retries events).2.message
      = "已下载到: " ++ filenameFor hashUrl output_dir url := by
  unfold download_pdf at h ⊢
  obtain ⟨body, hw, hm, hmsg⟩ :=
    go_success_written hashUrl url output_dir max_retries events _ 0 _ h
  have hne : body ≠ [] := body_ne_nil_of_magic body hm
  refine ⟨?_, ?_, hmsg⟩
  · rw [hw]
    simp
  · rw [hw]
    simp only [List.nil_append, List.all_cons, List.all_nil, Bool.and_true]
    rw [hm]
    cases body with
    | nil => exact absurd rfl hne
    | cons a l => simp

/-- Witness for C7: a successful run over a valid PDF response. -/
theorem C7_success_implies_valid_file_written_witness :
    (download_pdf (fun _ => 0) "http://e.com/paper.pdf" "documents" 3
        (fun _ => HttpEvent.resp 200 "application/pdf" [37, 80, 68, 70, 9])).1.written.map
        Prod.fst
      = [filenameFor (fun _ => 0) "documents" "http://e.com/paper.pdf"] ∧
    (download_pdf (fun _ => 0) "http://e.com/paper.pdf" "documents" 3
        (fun _ => HttpEvent.resp 200 "application/pdf" [37, 80, 68, 70, 9])).1.written.all
        (fun p => List.isPrefixOf pdfMagic p.2 && !p.2.isEmpty) = true ∧
    (download_pdf (fun _ => 0) "http://e.com/paper.pdf" "documents" 3
        (fun _ => HttpEvent.resp 200 "application/pdf" [37, 80, 68, 70, 9])).2.message
      = "已下载到: " ++ filenameFor (fun _ => 0) "documents" "http://e.com/paper.pdf" :=
  C7_success_implies_valid_file_written (fun _ => 0) "http://e.com/paper.pdf" "documents" 3
    (fun _ => HttpEvent.resp 200 "application/pdf" [37, 80, 68, 70, 9]) (by decide)

/-- Claim C10: for max_retries ≥ 1 the fall-through return after the
retry loop (line 110, UNKNOWN_ERROR "超过最大重试次数") is unreachable —
on the final attempt every classification branch, the exception handler
included, returns a terminal result, so the while loop never exits by
exhausting its condition; for max_retries ≤ 0 the loop body never runs,
no network attempt is made, and exactly that fallback is returned. -/
theorem C10_loop_fallback_unreachable (hashUrl : String → Int) (url output_dir : String)
    (max_retries : Int) (events : Nat → HttpEvent) :
    (1 ≤ max_retries →
      (download_pdf hashUrl url output_dir max_retries events).1.fellThrough = false) ∧
    (max_retries ≤ 0 →
      download_pdf hashUrl url output_dir max_retries events
        = (⟨0, [], [], true⟩, ⟨url, .UNKNOWN_ERROR, "超过最大重试次数"⟩)) := by
  constructor
  · intro h1
    unfold download_pdf
    exact go_no_fallthrough hashUrl url output_dir max_retries events _ 0 _
      (by omega) (by push_cast; omega) rfl
  · intro h0
    unfold download_pdf
    have hz : max_retries.toNat = 0 := by omega
    rw [hz]
    rfl

/-- Witness for C10 at max_retries = 3 (loop never falls through) and at
max_retries = 0 (fallback returned with no attempt). -/
theorem C10_loop_fallback_unreachable_witness :
    (download_pdf (fun _ => 0) "u7" "d" 3 (fun _ => HttpEvent.exn "boom")).1.fellThrough
      = false ∧
    download_pdf (fun _ => 0) "u7" "d" 0 (fun _ => HttpEvent.exn "boom")
      = (⟨0, [], [], true⟩, ⟨"u7", .UNKNOWN_ERROR, "超过最大重试次数"⟩) :=
  ⟨(C10_loop_fallback_unreachable (fun _ => 0) "u7" "d" 3 (fun _ => HttpEvent.exn "boom")).1
      (by decide),
   (C10_loop_fallback_unreachable (fun _ => 0) "u7" "d" 0 (fun _ => HttpEvent.exn "boom")).2
      (by decide)⟩

end PaperGenie
